import Mathlib

/-!
Verification of the ResearchHub AI pipeline core: the agent orchestrator
(backend/agents/orchestrator.py), the intent router
(backend/agents/intent_router.py) and the knowledge-graph service
(backend/services/knowledge_graph.py), shallowly embedded in Lean.

Python JSON-like values are modelled by `PyVal`; Python exceptions are
modelled by `Except String`; each external agent call is modelled by its
outcome (a returned value or a raised exception), which is exactly the
boundary the orchestrator sees (asyncio.gather with return_exceptions=True
delivers either the returned value or the exception object).
-/

/-- Model of a Python JSON-like value (the values that flow between the
agents: results of json.loads, dict/list literals, strings, numbers). -/
inductive PyVal where
  | none
  | bool (b : Bool)
  | int (n : Int)
  | str (s : String)
  | list (xs : List PyVal)
  | dict (fs : List (String × PyVal))
deriving Repr

mutual

/-- Python repr() of a value, restricted to the value shapes above.
Strings in this development contain no quotes or escapes, so repr of a
string is just the single-quoted text. -/
def pyRepr : PyVal → String
  | .none => "None"
  | .bool true => "True"
  | .bool false => "False"
  | .int n => toString n
  | .str s => "\x27" ++ s ++ "\x27"
  | .list xs => "[" ++ String.intercalate ", " (pyReprList xs) ++ "]"
  | .dict fs => "\x7b" ++ String.intercalate ", " (pyReprFields fs) ++ "\x7d"

/-- repr() of each element of a list value. -/
def pyReprList : List PyVal → List String
  | [] => []
  | x :: xs => pyRepr x :: pyReprList xs

/-- repr() of each key-value entry of a dict value. -/
def pyReprFields : List (String × PyVal) → List String
  | [] => []
  | (k, v) :: fs => ("\x27" ++ k ++ "\x27: " ++ pyRepr v) :: pyReprFields fs

end

/-- Python str() of a value: like repr() except that a top-level string is
rendered without quotes. Used for f-string interpolation. -/
def pyStr : PyVal → String
  | .str s => s
  | v => pyRepr v

/-- Python `d.get(key, default)`: returns the value for `key` when the
receiver is a dict, the default when the key is absent, and raises
AttributeError when the receiver is not a dict. -/
def pyGet (v : PyVal) (k : String) (dflt : PyVal) : Except String PyVal :=
  match v with
  | .dict fs => .ok ((List.lookup k fs).getD dflt)
  | _ => .error "AttributeError: object has no attribute get"

/-- Python `d[key] = x` on a dict: replaces the value in place when the key
exists, appends the pair otherwise; raises TypeError on any non-dict. -/
def pySetItem (v : PyVal) (k : String) (x : PyVal) : Except String PyVal :=
  match v with
  | .dict fs =>
      if (fs.map Prod.fst).contains k then
        .ok (.dict (fs.map fun p => if p.1 = k then (k, x) else p))
      else
        .ok (.dict (fs ++ [(k, x)]))
  | _ => .error "TypeError: object does not support item assignment"

/-- Python iteration `for x in v`: elements of a list, characters of a
string, keys of a dict; TypeError on non-iterables. -/
def pyIterElems : PyVal → Except String (List PyVal)
  | .list xs => .ok xs
  | .str s => .ok (s.toList.map (fun c => .str (String.singleton c)))
  | .dict fs => .ok (fs.map (fun p => .str p.1))
  | _ => .error "TypeError: object is not iterable"

/-- Keys of a dict value (empty for non-dicts); used to state properties
about the top-level report keys. -/
def pyKeys : PyVal → List String
  | .dict fs => fs.map Prod.fst
  | _ => []

/-- Whether a dict value has the given key (Python `k in d` for dicts). -/
def pyHasKey (fs : List (String × PyVal)) (k : String) : Bool :=
  (List.lookup k fs).isSome

/-- services/paper_search.py PaperResult: the unified paper record returned
by the retrieval collaborator. -/
structure PaperResult where
  title : String
  abstract : String
  authors : List String
  url : String
  source : String
deriving Repr, DecidableEq

/-- Outcome of one call to the LLM collaborator followed by json.loads, as
seen by a caller that parses the response: the call raised, the response
was not valid JSON (json.loads raises JSONDecodeError), or the response
parsed to a JSON value. -/
inductive LLMOutcome where
  | raised (msg : String)
  | invalidJSON (raw : String)
  | json (v : PyVal)
deriving Repr

/-- agents/intent_router.py ALL_AGENTS: the fixed ten-agent list. -/
def ALL_AGENTS : List String :=
  ["summarizer", "comparison", "insight", "gap", "literature",
   "novelty", "trend", "critique", "roadmap", "knowledge_graph"]

/-- IntentRouter.classify: parse the LLM classification (defaulting to a
general classification when the call raises or the response is not valid
JSON), then set the activated_agents and routing_strategy keys. The item
assignments happen outside the try block, so they can raise on a parsed
non-dict JSON value. -/
def classify (query : String) (o : LLMOutcome) : Except String PyVal := do
  let classification : PyVal :=
    match o with
    | .json v => v
    | .raised _ =>
        .dict [("query_type", .str "general"), ("intent", .str query),
               ("primary_focus", .str query)]
    | .invalidJSON _ =>
        .dict [("query_type", .str "general"), ("intent", .str query),
               ("primary_focus", .str query)]
  let c1 ← pySetItem classification "activated_agents"
    (.list (ALL_AGENTS.map .str))
  pySetItem c1 "routing_strategy" (.str "full_pipeline")

/-- The LLM outcomes on which classify returns normally: a raised call, an
unparsable response, or a response parsing to a JSON object. -/
def intentOK : LLMOutcome → Bool
  | .json (.dict _) => true
  | .json _ => false
  | _ => true

/-- Confidence signal 1 of AgentOrchestrator._compute_confidence: points and
reason from the paper count. -/
def paperSignal (paper_count : Nat) : Int × String :=
  if paper_count ≥ 8 then (30, "Strong paper coverage (8+ papers)")
  else if paper_count ≥ 5 then (20, "Moderate paper coverage (5-7 papers)")
  else if paper_count ≥ 2 then (10, "Limited paper coverage (2-4 papers)")
  else (5, "Minimal paper coverage (1 paper)")

/-- Confidence signal 2: points and reason from the summaries value. -/
def summarySignal (summaries : PyVal) : Int × String :=
  match summaries with
  | .list xs =>
      if xs.length > 0 then (20, "Summaries generated successfully")
      else (5, "Summary generation had issues")
  | .dict fs =>
      if pyHasKey fs "error" then (5, "Summary generation had issues")
      else (15, "Summaries generated with minor issues")
  | _ => (5, "Summary generation had issues")

/-- Confidence signal 3: points and reason from the comparison value. -/
def comparisonSignal (comparison : PyVal) : Int × String :=
  match comparison with
  | .dict fs =>
      if pyHasKey fs "error" then (5, "Comparison had issues")
      else (20, "Comparison analysis complete")
  | _ => (5, "Comparison had issues")

/-- Confidence signal 4: points and reason from the insights value. -/
def insightSignal (insights : PyVal) : Int × String :=
  match insights with
  | .dict fs =>
      if pyHasKey fs "error" then (5, "Insight extraction had issues")
      else (15, "Cross-paper insights extracted")
  | _ => (5, "Insight extraction had issues")

/-- Confidence signal 5: points and reason from the gaps value. -/
def gapSignal (gaps : PyVal) : Int × String :=
  match gaps with
  | .dict fs =>
      if pyHasKey fs "error" then (5, "Gap analysis had issues")
      else (15, "Gap analysis complete")
  | _ => (5, "Gap analysis had issues")

/-- AgentOrchestrator._compute_confidence: sums the five signal blocks in
source order, collects one reason per signal, and caps the total at 100. -/
def compute_confidence (papers : List PaperResult)
    (summaries comparison insights gaps : PyVal) : PyVal :=
  let s1 := paperSignal papers.length
  let s2 := summarySignal summaries
  let s3 := comparisonSignal comparison
  let s4 := insightSignal insights
  let s5 := gapSignal gaps
  let score := s1.1 + s2.1 + s3.1 + s4.1 + s5.1
  .dict [("score", .int (min score 100)),
         ("max_score", .int 100),
         ("breakdown", .list ([s1.2, s2.2, s3.2, s4.2, s5.2].map .str))]

/-- AgentOrchestrator._extract_recommendations: projects three list-valued
fields out of the insights value (defaulting to an empty list when the
field is absent or insights is not a dict). The gaps argument is accepted
but never read. -/
def extract_recommendations (insights gaps : PyVal) : PyVal :=
  let methods := match insights with
    | .dict fs => (List.lookup "unique_methods" fs).getD (.list [])
    | _ => .list []
  let datasets := match insights with
    | .dict fs => (List.lookup "common_datasets" fs).getD (.list [])
    | _ => .list []
  let metrics := match insights with
    | .dict fs => (List.lookup "evaluation_metrics" fs).getD (.list [])
    | _ => .list []
  .dict [("recommended_methods", methods),
         ("recommended_datasets", datasets),
         ("evaluation_metrics", metrics)]

/-- One element of the first loop of _extract_experiments: a string
direction becomes an Experiment line, a dict direction uses its
description (or its str()), anything else is skipped. -/
def experimentLine (label : String) (v : PyVal) : Option String :=
  match v with
  | .str s => some (label ++ s)
  | .dict fs =>
      some (label ++ pyStr ((List.lookup "description" fs).getD
        (.str (pyStr (.dict fs)))))
  | _ => Option.none

/-- AgentOrchestrator._extract_experiments: iterates the two list fields of
the gaps value (iteration of a non-iterable field value raises TypeError,
which the caller does not catch), wrapping each element as a labeled
string; when nothing was collected the sentinel list is returned. -/
def extract_experiments (gaps : PyVal) : Except String PyVal :=
  match gaps with
  | .dict fs => do
      let dirs ← pyIterElems ((List.lookup "novel_research_directions" fs).getD (.list []))
      let combos ← pyIterElems ((List.lookup "underexplored_combinations" fs).getD (.list []))
      let experiments :=
        dirs.filterMap (experimentLine "Experiment: ") ++
        combos.filterMap (experimentLine "Explore: ")
      if experiments.isEmpty then
        .ok (.list [.str "No specific experiments suggested — gap data was limited"])
      else
        .ok (.list (experiments.map .str))
  | _ => .ok (.list [.str "No specific experiments suggested — gap data was limited"])

/-- AgentOrchestrator._empty_result: the canonical empty report returned
when retrieval yields no papers. -/
def empty_result (query reason : String) : PyVal :=
  .dict [
    ("direct_answer", .dict [("query", .str query), ("error", .str reason)]),
    ("context_summary", .dict [("papers", .list []), ("total_papers", .int 0)]),
    ("knowledge_graph", .dict [("node_count", .int 0), ("edge_count", .int 0)]),
    ("comparison", .dict []),
    ("gap_analysis", .dict []),
    ("deep_insights", .dict []),
    ("novelty_score", .dict [("overall_score", .int 0), ("explanation", .str reason)]),
    ("trend_forecast", .dict []),
    ("recommended_methods_datasets", .dict []),
    ("experiment_suggestions", .list []),
    ("researcher_roadmap", .dict []),
    ("argument_strength", .list []),
    ("scientific_critique", .dict []),
    ("literature_review", .str ""),
    ("confidence_score", .dict [("score", .int 0), ("breakdown", .list [.str reason])]),
    ("explainability_log", .dict [("agents_activated", .list []), ("error", .str reason)])]

/-- Static fallback for the knowledge-graph stage (orchestrator step 6). -/
def FALLBACK_KG : PyVal :=
  .dict [("node_count", .int 0), ("edge_count", .int 0),
         ("error", .str "KG build failed")]

/-- Static fallback for the novelty stage. -/
def FALLBACK_NOVELTY : PyVal :=
  .dict [("overall_score", .int 0), ("explanation", .str "Novelty scoring failed")]

/-- Static fallback for the trend stage. -/
def FALLBACK_TREND : PyVal := .dict [("error", .str "Trend analysis failed")]

/-- Static fallback for the critique stage. -/
def FALLBACK_CRITIQUE : PyVal :=
  .dict [("scientific_critique",
          .dict [("strong_points", .list []), ("weak_points", .list [])]),
         ("argument_strength", .list [])]

/-- Static fallback for the roadmap stage. -/
def FALLBACK_ROADMAP : PyVal := .dict [("error", .str "Roadmap generation failed")]

/-- One pipeline invocation seen from the stage boundary: the outcome of
the intent-router LLM call, the retrieval result, and for each agent task
the value it returned or the exception message it raised. Error payloads
carry str(e). Wall-clock durations are outside the embedding; the timing
entries of the report are fixed at 0. -/
structure StageOutcomes where
  intentLLM : LLMOutcome
  papers : List PaperResult
  summarizer : Except String PyVal
  comparison : Except String PyVal
  insight : Except String PyVal
  gap : Except String PyVal
  kg : Except String PyVal
  novelty : Except String PyVal
  trend : Except String PyVal
  critique : Except String PyVal
  roadmap : Except String PyVal
  literature : Except String String

/-- The abstract and its truncation used for the paper context entries. -/
def truncatedAbstract (a : String) : String :=
  if a.length > 200 then a.take 200 ++ "..." else a

/-- AgentOrchestrator.run: the full pipeline over one assignment of stage
outcomes. Each try/except (and each gather slot with
return_exceptions=True) becomes a match on the stage outcome; attribute
and type errors raised by the assembly itself propagate, as in the
source. -/
def run (query : String) (o : StageOutcomes) : Except String PyVal := do
  let intent ← classify query o.intentLLM
  if o.papers.isEmpty then
    return empty_result query "No papers found for this query"
  let summaries := match o.summarizer with
    | .ok v => v
    | .error e => .dict [("error", .str ("Summarizer failed: " ++ e))]
  let comparison := match o.comparison with
    | .ok v => v
    | .error e => .dict [("error", .str ("Comparison failed: " ++ e))]
  let insights := match o.insight with
    | .ok v => v
    | .error e => .dict [("error", .str ("Insight extraction failed: " ++ e))]
  let gaps := match o.gap with
    | .ok v => v
    | .error e => .dict [("error", .str ("Gap analysis failed: " ++ e))]
  let kg_result := match o.kg with
    | .ok v => v
    | .error _ => FALLBACK_KG
  let novelty := match o.novelty with
    | .ok v => v
    | .error _ => FALLBACK_NOVELTY
  let trend := match o.trend with
    | .ok v => v
    | .error _ => FALLBACK_TREND
  let critique := match o.critique with
    | .ok v => v
    | .error _ => FALLBACK_CRITIQUE
  let roadmap := match o.roadmap with
    | .ok v => v
    | .error _ => FALLBACK_ROADMAP
  let literature_review : PyVal := match o.literature with
    | .ok s => .str s
    | .error e => .str ("Literature review generation failed: " ++ e)
  let confidence := compute_confidence o.papers summaries comparison insights gaps
  let paper_context : PyVal := .list (o.papers.map (fun p =>
    .dict [("title", .str p.title),
           ("authors", .list (p.authors.map .str)),
           ("url", .str p.url),
           ("source", .str p.source),
           ("abstract", .str (truncatedAbstract p.abstract))]))
  let recommended := extract_recommendations insights gaps
  let experiments ← extract_experiments gaps
  let argumentStrength ← pyGet critique "argument_strength" (.list [])
  let scientificCritique ← pyGet critique "scientific_critique" (.dict [])
  let routing ← pyGet intent "routing_strategy" (.str "full_pipeline")
  let kgNodeCount ← pyGet kg_result "node_count" (.int 0)
  let noveltyScore ← pyGet novelty "overall_score" (.str "N/A")
  let confScore ← pyGet confidence "score" (.str "N/A")
  let agents_activated : List String :=
    ["intent_router", "summarizer", "comparison", "insight", "gap",
     "knowledge_graph", "novelty", "trend", "critique", "roadmap", "literature"]
  return .dict [
    ("direct_answer", .dict [
      ("query", .str query),
      ("intent", intent),
      ("papers_found", .int o.papers.length),
      ("sources", .dict [
        ("arxiv", .int (o.papers.filter (fun p => p.source = "arxiv")).length),
        ("pubmed", .int (o.papers.filter (fun p => p.source = "pubmed")).length)])]),
    ("context_summary", .dict [
      ("papers", paper_context),
      ("total_papers", .int o.papers.length)]),
    ("knowledge_graph", kg_result),
    ("comparison", comparison),
    ("gap_analysis", gaps),
    ("deep_insights", insights),
    ("novelty_score", novelty),
    ("trend_forecast", trend),
    ("recommended_methods_datasets", recommended),
    ("experiment_suggestions", experiments),
    ("researcher_roadmap", roadmap),
    ("argument_strength", argumentStrength),
    ("scientific_critique", scientificCritique),
    ("literature_review", literature_review),
    ("confidence_score", confidence),
    ("explainability_log", .dict [
      ("agents_activated", .list (agents_activated.map .str)),
      ("total_agents", .int agents_activated.length),
      ("timing_breakdown", .dict [
        ("intent_classification", .int 0), ("paper_search", .int 0),
        ("summarizer", .int 0), ("comparison_and_insight", .int 0),
        ("gap_analysis", .int 0), ("parallel_agents", .int 0),
        ("literature_review", .int 0)]),
      ("total_pipeline_time_seconds", .int 0),
      ("routing_strategy", routing),
      ("reasoning_summary", .str (
        "Searched arXiv and PubMed for \x27" ++ query ++ "\x27, found " ++
        toString o.papers.length ++ " papers. " ++
        "Summarized all papers, then ran comparison and insight analysis in parallel. " ++
        "Detected research gaps, built knowledge graph with " ++
        pyStr kgNodeCount ++ " nodes, " ++
        "scored novelty at " ++ pyStr noveltyScore ++ "/100, " ++
        "forecasted trends, critiqued methodologies, and generated a 30-day roadmap. " ++
        "Final confidence: " ++ pyStr confScore ++ "/100. " ++
        "Total pipeline time: 0s."))])]

/-- The networkx DiGraph state used by KnowledgeGraphBuilder, restricted to
what its analyses read: node ids in insertion order (no duplicates) and
directed edges in insertion order (no duplicate pairs). Node and edge
attributes (type, description, relationship) are stored by the source but
not read by the analyses verified here. All node ids occurring in this
codebase are strings. -/
structure Graph where
  nodes : List String
  edges : List (String × String)
deriving Repr, DecidableEq

/-- The empty DiGraph (builder initial state). -/
def Graph.empty : Graph := ⟨[], []⟩

/-- networkx add_node: appends an unseen id, keeps position of a known one
(attribute overwrite is invisible here). -/
def addNode (g : Graph) (v : String) : Graph :=
  if v ∈ g.nodes then g else { g with nodes := g.nodes ++ [v] }

/-- networkx add_edge: silently creates missing endpoints (source first),
then records the directed edge once. -/
def addEdge (g : Graph) (u v : String) : Graph :=
  let g1 := addNode (addNode g u) v
  if (u, v) ∈ g1.edges then g1 else { g1 with edges := g1.edges ++ [(u, v)] }

/-- Node id of one entry of graph_data["nodes"]: entry.get("id", "unknown").
A non-dict entry raises AttributeError as in the source; a non-string id
does not occur in this codebase and is rejected by the embedding. -/
def entryNodeId (entry : PyVal) : Except String String :=
  match entry with
  | .dict fs =>
      match List.lookup "id" fs with
      | some (.str s) => .ok s
      | Option.none => .ok "unknown"
      | some _ => .error "ModelError: non-string node id"
  | _ => .error "AttributeError: object has no attribute get"

/-- Endpoint of one entry of graph_data["edges"]: entry.get(key, ""). -/
def entryEndpoint (entry : PyVal) (k : String) : Except String String :=
  match entry with
  | .dict fs =>
      match List.lookup k fs with
      | some (.str s) => .ok s
      | Option.none => .ok ""
      | some _ => .error "ModelError: non-string endpoint"
  | _ => .error "AttributeError: object has no attribute get"

/-- KnowledgeGraphBuilder._populate_graph: adds the declared nodes, then
the edges (auto-creating endpoints), starting from the empty builder
graph. -/
def populate_graph (graph_data : PyVal) : Except String Graph := do
  let nodesList ← pyIterElems (← pyGet graph_data "nodes" (.list []))
  let g ← nodesList.foldlM (fun g entry => do
    let id ← entryNodeId entry
    pure (addNode g id)) Graph.empty
  let edgesList ← pyIterElems (← pyGet graph_data "edges" (.list []))
  edgesList.foldlM (fun g entry => do
    let s ← entryEndpoint entry "source"
    let t ← entryEndpoint entry "target"
    pure (addEdge g s t)) g

/-- Directed degree of a node: out-degree plus in-degree (a self-loop
counts twice), as networkx DiGraph.degree reports it. -/
def degree (g : Graph) (u : String) : Nat :=
  (g.edges.filter (fun e => e.1 = u)).length +
  (g.edges.filter (fun e => e.2 = u)).length

/-- networkx degree_centrality, called by _analyze_graph: every node maps
to 1 when the graph has at most one node, otherwise to degree/(n-1).
Python float arithmetic is modelled exactly over the rationals; the values
this development reasons about (0, 1, 2) are float-exact. -/
def degree_centrality (g : Graph) : List (String × ℚ) :=
  if g.nodes.length ≤ 1 then g.nodes.map (fun n => (n, 1))
  else g.nodes.map (fun n => (n, (degree g n : ℚ) / ((g.nodes.length : ℚ) - 1)))

/-- Successors of a node in edge-insertion order (networkx adjacency
order). -/
def neighbors (g : Graph) (u : String) : List String :=
  g.edges.filterMap (fun e => if e.1 = u then some e.2 else Option.none)

/-- One breadth-first expansion of a stored (reversed) path: append each
unvisited successor of the path head. -/
def bfsExpand (g : Graph) (acc : List String × List (List String))
    (path : List String) : List String × List (List String) :=
  match path with
  | [] => acc
  | u :: _ =>
      (neighbors g u).foldl (fun acc2 v =>
        if v ∈ acc2.1 then acc2 else (acc2.1 ++ [v], acc2.2 ++ [v :: path])) acc

/-- Fuelled breadth-first search returning one shortest directed path
(reversed frontier paths; fuel bounds the level count). -/
def bfsLoop (g : Graph) (target : String) :
    Nat → List String → List (List String) → Option (List String)
  | 0, _, _ => Option.none
  | Nat.succ fuel, visited, frontier =>
      match frontier.find? (fun p => p.head? = some target) with
      | some p => some p.reverse
      | Option.none =>
          let next := frontier.foldl (bfsExpand g) (visited, [])
          if next.2.isEmpty then Option.none else bfsLoop g target fuel next.1 next.2

/-- networkx shortest_path on an unweighted DiGraph: a hop-minimal directed
node sequence from s to t, or nothing when no path exists (the source
catches the NetworkXNoPath exception). The source graphs verified here
have unique shortest paths, so the tie-breaking of networkx is not
observable. -/
def shortest_path (g : Graph) (s t : String) : Option (List String) :=
  bfsLoop g t (g.nodes.length + 1) [s] [[s]]

/-- One hidden connection record of _find_hidden_connections: fields from,
to, via (intermediate nodes) and path_length (hop count). -/
structure HiddenConnection where
  src : String
  tgt : String
  via : List String
  path_length : Nat
deriving Repr, DecidableEq

/-- Inner loop of _find_hidden_connections over the targets that follow
the source in the candidate list: skip pairs with a direct source-to-
target edge, record a path of 2..maxLen hops, break both on the direct-
edge branch and after a path check once 10 records exist, and skip the
break check on the no-path branch (the continue statement). -/
def hiddenInner (g : Graph) (maxLen : Nat) (source : String) :
    List String → List HiddenConnection → List HiddenConnection
  | [], hidden => hidden
  | t :: ts, hidden =>
      if (source, t) ∈ g.edges then
        if hidden.length ≥ 10 then hidden else hiddenInner g maxLen source ts hidden
      else
        match shortest_path g source t with
        | Option.none => hiddenInner g maxLen source ts hidden
        | some path =>
            let hidden' :=
              if 2 < path.length ∧ path.length ≤ maxLen + 1 then
                hidden ++ [⟨source, t, (path.drop 1).dropLast, path.length - 1⟩]
              else hidden
            if hidden'.length ≥ 10 then hidden'
            else hiddenInner g maxLen source ts hidden'

/-- Outer loop of _find_hidden_connections over the candidate list. -/
def hiddenOuter (g : Graph) (maxLen : Nat) :
    List String → List HiddenConnection → List HiddenConnection
  | [], hidden => hidden
  | s :: rest, hidden =>
      let hidden' := hiddenInner g maxLen s rest hidden
      if hidden'.length ≥ 10 then hidden' else hiddenOuter g maxLen rest hidden'

/-- KnowledgeGraphBuilder._find_hidden_connections: bounded search over the
first 30 nodes in insertion order. -/
def find_hidden_connections (g : Graph) (maxLen : Nat) : List HiddenConnection :=
  hiddenOuter g maxLen (g.nodes.take 30) []

/-- name = x if isinstance(x, str) else str(x), used by
_fallback_extraction for each method/dataset/theme entry. -/
def pyNameOf (v : PyVal) : String :=
  match v with
  | .str s => s
  | v => pyStr v

/-- A node dict manufactured by _fallback_extraction. -/
def fallbackNode (kind : String) (v : PyVal) : PyVal :=
  .dict [("id", .str (pyNameOf v)), ("type", .str kind),
         ("description", .str (pyNameOf v))]

/-- The comprehension filter of _fallback_extraction: the id of a node
entry whose type equals the given kind. -/
def nodeIdIfType (kind : String) (n : PyVal) : Option PyVal :=
  match n with
  | .dict fs =>
      match List.lookup "type" fs with
      | some (.str k) => if k = kind then List.lookup "id" fs else Option.none
      | _ => Option.none
  | _ => Option.none

/-- One evaluates_on edge entry manufactured by _fallback_extraction. -/
def fallbackEdge (m d : PyVal) : PyVal :=
  .dict [("source", m), ("target", d), ("relationship", .str "evaluates_on")]

/-- KnowledgeGraphBuilder._fallback_extraction: a method node per entry of
insights["unique_methods"], a dataset node per entry of
insights["common_datasets"], a concept node per entry of
insights["emerging_themes"], and an evaluates_on edge from each method id
to the first two dataset ids. Iterating a non-iterable field value raises
TypeError, as in the source. -/
def fallback_extraction (insights : PyVal) : Except String PyVal := do
  let ms ← pyIterElems (← pyGet insights "unique_methods" (.list []))
  let ds ← pyIterElems (← pyGet insights "common_datasets" (.list []))
  let ts ← pyIterElems (← pyGet insights "emerging_themes" (.list []))
  let nodes :=
    ms.map (fallbackNode "method") ++ ds.map (fallbackNode "dataset") ++
    ts.map (fallbackNode "concept")
  let methods := nodes.filterMap (nodeIdIfType "method")
  let datasets := nodes.filterMap (nodeIdIfType "dataset")
  let edges := (methods.map (fun m => (datasets.take 2).map (fallbackEdge m))).flatten
  pure (.dict [("nodes", .list nodes), ("edges", .list edges)])

/-- KnowledgeGraphBuilder._extract_graph_elements: the parsed LLM response,
or the fallback extraction when the response is not valid JSON; a raised
LLM call propagates (only JSONDecodeError is caught). -/
def extract_graph_elements (o : LLMOutcome) (insights : PyVal) :
    Except String PyVal :=
  match o with
  | .json v => .ok v
  | .invalidJSON _ => fallback_extraction insights
  | .raised msg => .error msg

/-- Point table, signal 1 (amended spec table): points for the retrieved
item count. -/
def itemCountPoints (n : Nat) : Int :=
  if n ≥ 8 then 30 else if n ≥ 5 then 20 else if n ≥ 2 then 10 else 5

/-- Point table, signal 2: points for the extraction (summaries) result:
20 for a non-empty list, 15 for a dict without error marker, else 5. -/
def extractionPoints (v : PyVal) : Int :=
  match v with
  | .list xs => if xs.length > 0 then 20 else 5
  | .dict fs => if pyHasKey fs "error" then 5 else 15
  | _ => 5

/-- Point table, signal 3: points for the comparison result: 20 for a dict
without error marker, else 5. -/
def synthesisPointsA (v : PyVal) : Int :=
  match v with
  | .dict fs => if pyHasKey fs "error" then 5 else 20
  | _ => 5

/-- Point table, signal 4: points for the insights result: 15 for a dict
without error marker, else 5. -/
def synthesisPointsB (v : PyVal) : Int :=
  match v with
  | .dict fs => if pyHasKey fs "error" then 5 else 15
  | _ => 5

/-- Point table, signal 5 (the signal missing from the spec table): points
for the gaps result: 15 for a dict without error marker, else 5. -/
def gapPoints (v : PyVal) : Int :=
  match v with
  | .dict fs => if pyHasKey fs "error" then 5 else 15
  | _ => 5

/-- The capped five-signal sum of the amended point table. -/
def specConfidenceScore (papers : List PaperResult)
    (summaries comparison insights gaps : PyVal) : Int :=
  min (itemCountPoints papers.length + extractionPoints summaries +
       synthesisPointsA comparison + synthesisPointsB insights +
       gapPoints gaps) 100

/-- Spec-side node record of the fallback extraction (section 4.2 of the
spec): one node per name, description equal to the id. -/
def specNode (id kind : String) : PyVal :=
  .dict [("id", .str id), ("type", .str kind), ("description", .str id)]

/-- Spec-side node list of the fallback extraction: a method node per
method name, a dataset node per dataset name, a concept node per theme
name, in input order. -/
def specFallbackNodes (methods datasets themes : List String) : List PyVal :=
  methods.map (fun m => specNode m "method") ++
  datasets.map (fun d => specNode d "dataset") ++
  themes.map (fun t => specNode t "concept")

/-- Spec-side edge list of the fallback extraction: an evaluates_on edge
from each method to the first two datasets, in stable input order. -/
def specFallbackEdges (methods datasets : List String) : List PyVal :=
  (methods.map (fun m => (datasets.take 2).map (fun d =>
    PyVal.dict [("source", .str m), ("target", .str d),
                ("relationship", .str "evaluates_on")]))).flatten

/-- Spec-side fallback graph data built from the three name lists. -/
def specFallbackGraph (methods datasets themes : List String) : PyVal :=
  .dict [("nodes", .list (specFallbackNodes methods datasets themes)),
         ("edges", .list (specFallbackEdges methods datasets))]

/-- Spec-side projection of one list-valued field out of an upstream
output: the field value when the output is a dict and the field is
present, an empty list otherwise. -/
def specProjection (upstream : PyVal) (field : String) : PyVal :=
  match upstream with
  | .dict fs => (List.lookup field fs).getD (.list [])
  | _ => .list []

/-- A concrete arXiv paper record used by the witnesses. -/
def paperA : PaperResult :=
  { title := "Attention Is All You Need",
    abstract := "We propose the Transformer.",
    authors := ["Vaswani"],
    url := "http://arxiv.org/abs/1706.03762",
    source := "arxiv" }

/-- A concrete stage result carrying an error marker. -/
def errDict : PyVal := .dict [("error", .str "boom")]

/-- A node entry of LLM graph data. -/
def nodeData (id : String) : PyVal :=
  .dict [("id", .str id), ("type", .str "concept"), ("description", .str id)]

/-- An edge entry of LLM graph data. -/
def edgeData (s t : String) : PyVal :=
  .dict [("source", .str s), ("target", .str t), ("relationship", .str "uses")]

/-- The graph populated from graph data (empty on a population error; the
concrete data below populates without error). -/
def graphOf (d : PyVal) : Graph :=
  match populate_graph d with
  | .ok g => g
  | .error _ => Graph.empty

/-- Graph data of the chain A→B→C→D of testable property 5. -/
def chainGraphData : PyVal :=
  .dict [("nodes", .list [nodeData "A", nodeData "B", nodeData "C", nodeData "D"]),
         ("edges", .list [edgeData "A" "B", edgeData "B" "C", edgeData "C" "D"])]

/-- The chain graph A→B→C→D. -/
def chainGraph : Graph := graphOf chainGraphData

/-- Graph data of a directed triangle B→A, A→C, C→B. -/
def triangleGraphData : PyVal :=
  .dict [("nodes", .list [nodeData "A", nodeData "B", nodeData "C"]),
         ("edges", .list [edgeData "B" "A", edgeData "A" "C", edgeData "C" "B"])]

/-- The directed triangle graph. -/
def triangleGraph : Graph := graphOf triangleGraphData

/-- Graph data of the two-node graph with reciprocal edges A→B and B→A. -/
def twoCycleGraphData : PyVal :=
  .dict [("nodes", .list [nodeData "A", nodeData "B"]),
         ("edges", .list [edgeData "A" "B", edgeData "B" "A"])]

/-- The two-node reciprocal-edge graph. -/
def twoCycleGraph : Graph := graphOf twoCycleGraphData

/-- The one-node graph with no edges. -/
def oneNodeGraph : Graph :=
  graphOf (.dict [("nodes", .list [nodeData "A"]), ("edges", .list [])])

/-- A two-node graph with no edges: node A is isolated. -/
def isolatedGraph : Graph :=
  graphOf (.dict [("nodes", .list [nodeData "A", nodeData "B"]), ("edges", .list [])])

/-- Stage outcomes in which every agent call returns normally except that
the critique agent returns a JSON array (valid JSON, wrong schema). -/
def nondictCritiqueOutcomes : StageOutcomes :=
  { intentLLM := .raised "llm down",
    papers := [paperA],
    summarizer := .ok (.list [.str "s1"]),
    comparison := .ok (.dict []),
    insight := .ok (.dict []),
    gap := .ok (.dict []),
    kg := .ok (.dict [("node_count", .int 4)]),
    novelty := .ok (.dict [("overall_score", .int 70)]),
    trend := .ok (.dict []),
    critique := .ok (.list []),
    roadmap := .ok (.dict []),
    literature := .ok "review text" }

/-- Stage outcomes of a pipeline invocation whose retrieval found no
papers. -/
def emptyRetrievalOutcomes : StageOutcomes :=
  { intentLLM := .raised "llm down",
    papers := [],
    summarizer := .ok (.dict []),
    comparison := .ok (.dict []),
    insight := .ok (.dict []),
    gap := .ok (.dict []),
    kg := .ok (.dict []),
    novelty := .ok (.dict []),
    trend := .ok (.dict []),
    critique := .ok (.dict []),
    roadmap := .ok (.dict []),
    literature := .ok "review text" }

/-- An insights value whose unique_methods list contains a duplicate. -/
def dupInsights : PyVal :=
  .dict [("unique_methods", .list [.str "m", .str "m"])]

/-- The 16 top-level report keys of the report wire shape. -/
def REPORT_KEYS : List String :=
  ["direct_answer", "context_summary", "knowledge_graph", "comparison",
   "gap_analysis", "deep_insights", "novelty_score", "trend_forecast",
   "recommended_methods_datasets", "experiment_suggestions",
   "researcher_roadmap", "argument_strength", "scientific_critique",
   "literature_review", "confidence_score", "explainability_log"]

theorem paperSignal_points (n : Nat) : (paperSignal n).1 = itemCountPoints n := by
  unfold paperSignal itemCountPoints
  split_ifs <;> rfl

theorem summarySignal_points (v : PyVal) : (summarySignal v).1 = extractionPoints v := by
  cases v <;> simp only [summarySignal, extractionPoints] <;>
    first
    | rfl
    | (split_ifs <;> rfl)

theorem comparisonSignal_points (v : PyVal) : (comparisonSignal v).1 = synthesisPointsA v := by
  cases v <;> simp only [comparisonSignal, synthesisPointsA] <;>
    first
    | rfl
    | (split_ifs <;> rfl)

theorem insightSignal_points (v : PyVal) : (insightSignal v).1 = synthesisPointsB v := by
  cases v <;> simp only [insightSignal, synthesisPointsB] <;>
    first
    | rfl
    | (split_ifs <;> rfl)

theorem gapSignal_points (v : PyVal) : (gapSignal v).1 = gapPoints v := by
  cases v <;> simp only [gapSignal, gapPoints] <;>
    first
    | rfl
    | (split_ifs <;> rfl)

theorem confidence_score_lookup (papers : List PaperResult)
    (s c i g : PyVal) :
    pyGet (compute_confidence papers s c i g) "score" PyVal.none =
      .ok (.int (specConfidenceScore papers s c i g)) := by
  unfold compute_confidence pyGet specConfidenceScore
  simp only [List.lookup, paperSignal_points, summarySignal_points,
    comparisonSignal_points, insightSignal_points, gapSignal_points]
  rfl

theorem itemCountPoints_bounds (n : Nat) :
    5 ≤ itemCountPoints n ∧ itemCountPoints n ≤ 30 := by
  unfold itemCountPoints; split_ifs <;> norm_num

theorem extractionPoints_bounds (v : PyVal) :
    5 ≤ extractionPoints v ∧ extractionPoints v ≤ 20 := by
  cases v <;> simp only [extractionPoints] <;>
    first
    | (split_ifs <;> norm_num)
    | norm_num

theorem synthesisPointsA_bounds (v : PyVal) :
    5 ≤ synthesisPointsA v ∧ synthesisPointsA v ≤ 20 := by
  cases v <;> simp only [synthesisPointsA] <;>
    first
    | (split_ifs <;> norm_num)
    | norm_num

theorem synthesisPointsB_bounds (v : PyVal) :
    5 ≤ synthesisPointsB v ∧ synthesisPointsB v ≤ 15 := by
  cases v <;> simp only [synthesisPointsB] <;>
    first
    | (split_ifs <;> norm_num)
    | norm_num

theorem gapPoints_bounds (v : PyVal) :
    5 ≤ gapPoints v ∧ gapPoints v ≤ 15 := by
  cases v <;> simp only [gapPoints] <;>
    first
    | (split_ifs <;> norm_num)
    | norm_num

theorem specConfidenceScore_bounds (papers : List PaperResult) (s c i g : PyVal) :
    25 ≤ specConfidenceScore papers s c i g ∧ specConfidenceScore papers s c i g ≤ 100 := by
  unfold specConfidenceScore
  have h1 := itemCountPoints_bounds papers.length
  have h2 := extractionPoints_bounds s
  have h3 := synthesisPointsA_bounds c
  have h4 := synthesisPointsB_bounds i
  have h5 := gapPoints_bounds g
  constructor
  · exact le_min (by linarith) (by norm_num)
  · exact min_le_right _ _

/-- C2 counterexample: at the concrete input of the claim (one retrieved
item, summaries, comparison, insights and gaps each an error dict) the
confidence score the code computes is 25, not the 20 predicted by the
four-signal table of spec section 4.3. -/
theorem confidence_all_error_is_25 :
    pyGet (compute_confidence [paperA] errDict errDict errDict errDict) "score" PyVal.none
      = .ok (.int 25) ∧ (25 : Int) ≠ 20 :=
  ⟨rfl, by norm_num⟩

/-- C2 (amended): for every combination of inputs the confidence score is
in [0,100] and equals the sum of FIVE signals, capped at 100: item count
30/20/10/5, extraction 20/15/5, comparison 20/5, insights 15/5, and a
fifth gaps signal 15/5 that the four-signal table of spec section 4.3
omits; in particular the all-error example with itemCount 1 scores
5+5+5+5+5 = 25, not 20. -/
theorem confidence_five_signal_sum (papers : List PaperResult) (s c i g : PyVal) :
    pyGet (compute_confidence papers s c i g) "score" PyVal.none =
      .ok (.int (specConfidenceScore papers s c i g)) ∧
    0 ≤ specConfidenceScore papers s c i g ∧
    specConfidenceScore papers s c i g ≤ 100 := by
  have hb := specConfidenceScore_bounds papers s c i g
  exact ⟨confidence_score_lookup papers s c i g, by linarith [hb.1], hb.2⟩

/-- C9: for every input (any paper list, any summaries, comparison,
insights and gaps values) the computed confidence score is at least 25 and
at most 100, because each of the five signals contributes at least 5
points before the cap at 100. -/
theorem confidence_score_bounds (papers : List PaperResult) (s c i g : PyVal) :
    ∃ n : Int, pyGet (compute_confidence papers s c i g) "score" PyVal.none = .ok (.int n) ∧
      25 ≤ n ∧ n ≤ 100 := by
  have hb := specConfidenceScore_bounds papers s c i g
  exact ⟨specConfidenceScore papers s c i g, confidence_score_lookup papers s c i g, hb.1, hb.2⟩

/-- C10 (code bug): when the underlying LLM call RETURNS valid JSON that is
not an object (here the number 42), IntentRouter.classify raises TypeError
instead of substituting the default general classification: the item
assignment of activated_agents happens outside the try block. -/
theorem classify_raises_on_nonobject_json :
    classify "q" (.json (.int 42)) =
      .error "TypeError: object does not support item assignment" := rfl

/-- C1 (code bug): with one retrieved paper and every stage returning a
value, a critique-stage return value that is a JSON array (valid JSON,
wrong schema) makes run raise AttributeError past its boundary when the
assembly calls critique.get, instead of filling the critique slots with
the fallback: the never-raises contract fails. -/
theorem run_raises_on_nondict_critique :
    run "q" nondictCritiqueOutcomes =
      .error "AttributeError: object has no attribute get" := rfl

theorem pySetItem_dict (fs : List (String × PyVal)) (k : String) (x : PyVal) :
    ∃ gs, pySetItem (.dict fs) k x = .ok (.dict gs) := by
  simp only [pySetItem]
  split_ifs <;> exact ⟨_, rfl⟩

theorem classify_ok_of_intentOK (q : String) (o : LLMOutcome)
    (h : intentOK o = true) : ∃ v, classify q o = .ok v := by
  cases o with
  | raised m => exact ⟨_, rfl⟩
  | invalidJSON r => exact ⟨_, rfl⟩
  | json v =>
      cases v with
      | dict fs =>
          obtain ⟨gs, h1⟩ := pySetItem_dict fs "activated_agents"
            (.list (ALL_AGENTS.map .str))
          obtain ⟨hs, h2⟩ := pySetItem_dict gs "routing_strategy" (.str "full_pipeline")
          exact ⟨.dict hs, by simp only [classify, h1]; exact h2⟩
      | none => simp [intentOK] at h
      | bool b => simp [intentOK] at h
      | int n => simp [intentOK] at h
      | str s => simp [intentOK] at h
      | list xs => simp [intentOK] at h

/-- C3: whenever retrieval returns an empty paper list (and the advisory
intent stage returns normally), run short-circuits to the canonical empty
report: all 16 top-level report keys are present, with explicit empty or
zero values and the human-readable reason string. -/
theorem run_empty_retrieval (q : String) (o : StageOutcomes)
    (hintent : intentOK o.intentLLM = true) (hp : o.papers = []) :
    run q o = .ok (empty_result q "No papers found for this query") ∧
    pyKeys (empty_result q "No papers found for this query") = REPORT_KEYS ∧
    REPORT_KEYS.length = 16 := by
  obtain ⟨v, hv⟩ := classify_ok_of_intentOK q o.intentLLM hintent
  refine ⟨?_, rfl, rfl⟩
  unfold run
  rw [hv]
  simp [hp, Except.bind]

/-- C3 witness at a concrete invocation with no retrieved papers. -/
theorem run_empty_retrieval_witness :
    intentOK emptyRetrievalOutcomes.intentLLM = true ∧
    emptyRetrievalOutcomes.papers = [] ∧
    run "transformers" emptyRetrievalOutcomes =
      .ok (empty_result "transformers" "No papers found for this query") :=
  ⟨rfl, rfl,
    (run_empty_retrieval "transformers" emptyRetrievalOutcomes rfl rfl).1⟩

theorem lookup_map_self {α : Type} (l : List String) (f : String → α) (u : String)
    (hu : u ∈ l) : List.lookup u (l.map (fun n => (n, f n))) = some (f u) := by
  induction l with
  | nil => cases hu
  | cons a l ih =>
      by_cases h : u = a
      · subst h
        simp [List.lookup]
      · have hb : (u == a) = false := beq_eq_false_iff_ne.mpr h
        have hl : u ∈ l := by
          rcases List.mem_cons.mp hu with h1 | h1
          · exact absurd h1 h
          · exact h1
        simp only [List.map_cons, List.lookup, hb]
        exact ih hl

/-- C4 (amended): in a graph with at least two nodes, the degree centrality
computed for each node equals (in-degree + out-degree)/(nodeCount − 1); it
is nonnegative and is exactly 0 for an isolated node, but it is NOT
confined to [0,1] (reciprocal edges push it to 2, see the counterexample)
and a one-node graph reports 1, not 0. -/
theorem centrality_formula (g : Graph) (u : String)
    (h2 : 2 ≤ g.nodes.length) (hu : u ∈ g.nodes) :
    List.lookup u (degree_centrality g) =
      some ((degree g u : ℚ) / ((g.nodes.length : ℚ) - 1)) ∧
    0 ≤ (degree g u : ℚ) / ((g.nodes.length : ℚ) - 1) ∧
    (degree g u = 0 → (degree g u : ℚ) / ((g.nodes.length : ℚ) - 1) = 0) := by
  have hn : ¬ g.nodes.length ≤ 1 := by omega
  have hden : (0:ℚ) ≤ (g.nodes.length : ℚ) - 1 := by
    have : (2:ℚ) ≤ (g.nodes.length : ℚ) := by exact_mod_cast h2
    linarith
  refine ⟨?_, ?_, ?_⟩
  · unfold degree_centrality
    rw [if_neg hn]
    exact lookup_map_self g.nodes _ u hu
  · exact div_nonneg (by positivity) hden
  · intro h
    rw [h]
    simp

/-- C4 witness: node A is isolated in the two-node edgeless graph and its
centrality is exactly 0. -/
theorem centrality_formula_witness :
    2 ≤ isolatedGraph.nodes.length ∧ "A" ∈ isolatedGraph.nodes ∧
    List.lookup "A" (degree_centrality isolatedGraph) =
      some ((degree isolatedGraph "A" : ℚ) / ((isolatedGraph.nodes.length : ℚ) - 1)) ∧
    (degree isolatedGraph "A" : ℚ) / ((isolatedGraph.nodes.length : ℚ) - 1) = 0 := by
  have h := centrality_formula isolatedGraph "A" (by decide) (by decide)
  exact ⟨by decide, by decide, h.1, h.2.2 (by decide)⟩

/-- C4 counterexample: with reciprocal edges A→B and B→A the centrality
reported for A is 2, outside [0,1]; and in a one-node graph the centrality
reported for its node is 1, not 0. -/
theorem centrality_counterexample :
    List.lookup "A" (degree_centrality twoCycleGraph) = some 2 ∧ ¬ ((2:ℚ) ≤ 1) ∧
    List.lookup "A" (degree_centrality oneNodeGraph) = some 1 ∧ (1:ℚ) ≠ 0 := by
  have hg2 : twoCycleGraph = ⟨["A", "B"], [("A", "B"), ("B", "A")]⟩ := by decide
  have hg1 : oneNodeGraph = ⟨["A"], []⟩ := by decide
  refine ⟨?_, by norm_num, ?_, by norm_num⟩
  · rw [hg2]
    have hd : degree ⟨["A", "B"], [("A", "B"), ("B", "A")]⟩ "A" = 2 := by decide
    simp [degree_centrality, hd, List.lookup]
    norm_num
  · rw [hg1]
    simp [degree_centrality, List.lookup]

theorem hiddenInner_subset (g : Graph) (maxLen : Nat) (s : String) (ts : List String) :
    ∀ (hidden : List HiddenConnection) (c : HiddenConnection),
      c ∈ hiddenInner g maxLen s ts hidden →
      c ∈ hidden ∨ (c.src = s ∧ c.tgt ∈ ts ∧ (c.src, c.tgt) ∉ g.edges ∧
        2 ≤ c.path_length ∧ c.path_length ≤ maxLen) := by
  induction ts with
  | nil => intro hidden c hc; exact Or.inl hc
  | cons t ts ih =>
      intro hidden c hc
      have lift : c ∈ hidden ∨ (c.src = s ∧ c.tgt ∈ ts ∧ (c.src, c.tgt) ∉ g.edges ∧
          2 ≤ c.path_length ∧ c.path_length ≤ maxLen) →
          c ∈ hidden ∨ (c.src = s ∧ c.tgt ∈ t :: ts ∧ (c.src, c.tgt) ∉ g.edges ∧
          2 ≤ c.path_length ∧ c.path_length ≤ maxLen) := by
        rintro (h | ⟨h1, h2, h3, h4, h5⟩)
        · exact Or.inl h
        · exact Or.inr ⟨h1, List.mem_cons_of_mem t h2, h3, h4, h5⟩
      simp only [hiddenInner] at hc
      by_cases hedge : (s, t) ∈ g.edges
      · simp only [if_pos hedge] at hc
        by_cases h10 : hidden.length ≥ 10
        · simp only [if_pos h10] at hc
          exact Or.inl hc
        · simp only [if_neg h10] at hc
          exact lift (ih hidden c hc)
      · simp only [if_neg hedge] at hc
        cases hsp : shortest_path g s t with
        | none =>
            simp only [hsp] at hc
            exact lift (ih hidden c hc)
        | some path =>
            simp only [hsp] at hc
            have hmem : 2 < path.length ∧ path.length ≤ maxLen + 1 →
                c ∈ hidden ++ [⟨s, t, (path.drop 1).dropLast, path.length - 1⟩] →
                c ∈ hidden ∨ (c.src = s ∧ c.tgt ∈ t :: ts ∧ (c.src, c.tgt) ∉ g.edges ∧
                  2 ≤ c.path_length ∧ c.path_length ≤ maxLen) := by
              intro hpl hin
              rcases List.mem_append.mp hin with h | h
              · exact Or.inl h
              · have hx := List.mem_singleton.mp h
                subst hx
                refine Or.inr ⟨rfl, List.mem_cons_self t ts, hedge, ?_, ?_⟩
                · show 2 ≤ path.length - 1
                  omega
                · show path.length - 1 ≤ maxLen
                  omega
            by_cases hguard : 2 < path.length ∧ path.length ≤ maxLen + 1
            · simp only [if_pos hguard] at hc
              by_cases h10 :
                  (hidden ++ [(⟨s, t, (path.drop 1).dropLast, path.length - 1⟩ :
                    HiddenConnection)]).length ≥ 10
              · simp only [if_pos h10] at hc
                exact hmem hguard hc
              · simp only [if_neg h10] at hc
                rcases ih _ c hc with h | h
                · exact hmem hguard h
                · exact lift (Or.inr h)
            · simp only [if_neg hguard] at hc
              by_cases h10 : hidden.length ≥ 10
              · simp only [if_pos h10] at hc
                exact Or.inl hc
              · simp only [if_neg h10] at hc
                exact lift (ih hidden c hc)

theorem hiddenInner_length (g : Graph) (maxLen : Nat) (s : String) (ts : List String) :
    ∀ hidden : List HiddenConnection, hidden.length < 10 →
      (hiddenInner g maxLen s ts hidden).length ≤ 10 := by
  induction ts with
  | nil =>
      intro hidden h
      simp only [hiddenInner]
      omega
  | cons t ts ih =>
      intro hidden h
      simp only [hiddenInner]
      by_cases hedge : (s, t) ∈ g.edges
      · simp only [if_pos hedge]
        rw [if_neg (by omega)]
        exact ih hidden h
      · simp only [if_neg hedge]
        cases hsp : shortest_path g s t with
        | none => exact ih hidden h
        | some path =>
            by_cases hguard : 2 < path.length ∧ path.length ≤ maxLen + 1
            · simp only [if_pos hguard]
              have hl : (hidden ++ [(⟨s, t, (path.drop 1).dropLast, path.length - 1⟩ :
                  HiddenConnection)]).length = hidden.length + 1 := by simp
              by_cases h10 :
                  (hidden ++ [(⟨s, t, (path.drop 1).dropLast, path.length - 1⟩ :
                    HiddenConnection)]).length ≥ 10
              · simp only [if_pos h10]
                omega
              · simp only [if_neg h10]
                exact ih _ (by omega)
            · simp only [if_neg hguard]
              rw [if_neg (by omega)]
              exact ih hidden h

theorem hiddenOuter_subset (g : Graph) (maxLen : Nat) :
    ∀ (ns : List String) (hidden : List HiddenConnection) (c : HiddenConnection),
      c ∈ hiddenOuter g maxLen ns hidden →
      c ∈ hidden ∨ (c.src ∈ ns ∧ c.tgt ∈ ns ∧ (c.src, c.tgt) ∉ g.edges ∧
        2 ≤ c.path_length ∧ c.path_length ≤ maxLen) := by
  intro ns
  induction ns with
  | nil => intro hidden c hc; exact Or.inl hc
  | cons s rest ih =>
      intro hidden c hc
      simp only [hiddenOuter] at hc
      have inner := hiddenInner_subset g maxLen s rest
      by_cases h10 : (hiddenInner g maxLen s rest hidden).length ≥ 10
      · simp only [if_pos h10] at hc
        rcases inner hidden c hc with h | ⟨h1, h2, h3, h4, h5⟩
        · exact Or.inl h
        · exact Or.inr ⟨by rw [h1]; exact List.mem_cons_self s rest,
            List.mem_cons_of_mem s h2, h3, h4, h5⟩
      · simp only [if_neg h10] at hc
        rcases ih (hiddenInner g maxLen s rest hidden) c hc with h | ⟨h1, h2, h3, h4, h5⟩
        · rcases inner hidden c h with h' | ⟨h1, h2, h3, h4, h5⟩
          · exact Or.inl h'
          · exact Or.inr ⟨by rw [h1]; exact List.mem_cons_self s rest,
              List.mem_cons_of_mem s h2, h3, h4, h5⟩
        · exact Or.inr ⟨List.mem_cons_of_mem s h1, List.mem_cons_of_mem s h2, h3, h4, h5⟩

theorem hiddenOuter_length (g : Graph) (maxLen : Nat) :
    ∀ (ns : List String) (hidden : List HiddenConnection), hidden.length < 10 →
      (hiddenOuter g maxLen ns hidden).length ≤ 10 := by
  intro ns
  induction ns with
  | nil =>
      intro hidden h
      simp only [hiddenOuter]
      omega
  | cons s rest ih =>
      intro hidden h
      simp only [hiddenOuter]
      by_cases h10 : (hiddenInner g maxLen s rest hidden).length ≥ 10
      · simp only [if_pos h10]
        exact hiddenInner_length g maxLen s rest hidden h
      · simp only [if_neg h10]
        exact ih _ (by omega)

/-- C5 (amended): every recorded hidden connection has both endpoints among
the first 30 nodes in insertion order, NO DIRECT EDGE IN THE ITERATION
DIRECTION from its first to its second endpoint (a reverse direct edge is
not checked — see the counterexample), a hop count strictly greater than 1
and at most maxPathLength, and at most 10 connections are collected. -/
theorem hidden_connections_invariants (g : Graph) (maxLen : Nat)
    (c : HiddenConnection) (hc : c ∈ find_hidden_connections g maxLen) :
    c.src ∈ g.nodes.take 30 ∧ c.tgt ∈ g.nodes.take 30 ∧
    (c.src, c.tgt) ∉ g.edges ∧ 2 ≤ c.path_length ∧ c.path_length ≤ maxLen ∧
    (find_hidden_connections g maxLen).length ≤ 10 := by
  have hlen := hiddenOuter_length g maxLen (g.nodes.take 30) [] (by norm_num)
  rcases hiddenOuter_subset g maxLen (g.nodes.take 30) [] c hc with h | ⟨h1, h2, h3, h4, h5⟩
  · cases h
  · exact ⟨h1, h2, h3, h4, h5, hlen⟩

/-- C5 witness: the connection (A,C) via B of the chain graph satisfies all
the invariants. -/
theorem hidden_connections_invariants_witness :
    (⟨"A", "C", ["B"], 2⟩ : HiddenConnection) ∈ find_hidden_connections chainGraph 3 ∧
    ("A" ∈ chainGraph.nodes.take 30 ∧ "C" ∈ chainGraph.nodes.take 30 ∧
     ("A", "C") ∉ chainGraph.edges ∧ (2:Nat) ≥ 2 ∧ (2:Nat) ≤ 3 ∧
     (find_hidden_connections chainGraph 3).length ≤ 10) := by
  have hmem : (⟨"A", "C", ["B"], 2⟩ : HiddenConnection) ∈
      find_hidden_connections chainGraph 3 := by decide
  have h := hidden_connections_invariants chainGraph 3 ⟨"A", "C", ["B"], 2⟩ hmem
  exact ⟨hmem, h.1, h.2.1, h.2.2.1, h.2.2.2.1, h.2.2.2.2.1, h.2.2.2.2.2⟩

/-- C5 counterexample: in the triangle with edges B→A, A→C, C→B the search
records the pair (A,B) with via [C] although A and B are directly
connected by the edge B→A, refuting the claim that a recorded pair is
never directly connected by an edge. -/
theorem hidden_includes_reverse_connected_pair :
    (⟨"A", "B", ["C"], 2⟩ : HiddenConnection) ∈ find_hidden_connections triangleGraph 3 ∧
    ("B", "A") ∈ triangleGraph.edges := by
  constructor <;> decide

/-- C6: on the chain A→B→C→D the hidden connections are exactly (A,C) via
[B] with 2 hops, (A,D) via [B,C] with 3 hops and (B,D) via [C] with 2
hops; the directly connected pairs (A,B), (B,C), (C,D) are excluded. -/
theorem chain_graph_hidden_connections :
    find_hidden_connections chainGraph 3 =
      [⟨"A", "C", ["B"], 2⟩, ⟨"A", "D", ["B", "C"], 3⟩, ⟨"B", "D", ["C"], 2⟩] ∧
    ("A", "B") ∉ (find_hidden_connections chainGraph 3).map (fun c => (c.src, c.tgt)) ∧
    ("B", "C") ∉ (find_hidden_connections chainGraph 3).map (fun c => (c.src, c.tgt)) ∧
    ("C", "D") ∉ (find_hidden_connections chainGraph 3).map (fun c => (c.src, c.tgt)) := by
  refine ⟨by decide, ?_, ?_, ?_⟩ <;> decide

theorem exbind_ok {ε α β : Type} (a : α) (f : α → Except ε β) :
    ((Except.ok a : Except ε α) >>= f) = f a := rfl

theorem nodeIdIfType_fallbackNode (k k' : String) (v : PyVal) :
    nodeIdIfType k (fallbackNode k' v) =
      if k' = k then some (.str (pyNameOf v)) else Option.none := by
  simp [nodeIdIfType, fallbackNode, List.lookup]

theorem filterMap_fallback_str (k k' : String) (l : List String) :
    List.filterMap ((nodeIdIfType k ∘ fallbackNode k') ∘ PyVal.str) l =
      if k' = k then l.map PyVal.str else [] := by
  induction l with
  | nil => simp
  | cons x l ih =>
      by_cases h : k' = k
      · subst h
        simp_all [Function.comp, nodeIdIfType_fallbackNode, pyNameOf]
      · simp_all [Function.comp, nodeIdIfType_fallbackNode, pyNameOf, h]

theorem map_fallbackNode_str (k : String) (l : List String) :
    l.map (fallbackNode k ∘ PyVal.str) = l.map (fun m => specNode m k) := by
  induction l with
  | nil => simp
  | cons x l ih => simp [Function.comp, fallbackNode, specNode, pyNameOf, ih]

/-- C7 (amended): the fallback extraction is deterministic and equals the
described construction exactly — a method node per method name, a dataset
node per dataset name, a concept node per theme name, and an evaluates_on
edge from each method node to at most the first two dataset nodes — but
the produced graph is non-empty only when at least one of the three name
lists is non-empty (an insights value without those fields yields an EMPTY
graph, see the counterexample). -/
theorem fallback_extraction_deterministic (ms ds ts : List String) :
    fallback_extraction (.dict [("unique_methods", .list (ms.map .str)),
      ("common_datasets", .list (ds.map .str)),
      ("emerging_themes", .list (ts.map .str))]) = .ok (specFallbackGraph ms ds ts) ∧
    (ms ≠ [] ∨ ds ≠ [] ∨ ts ≠ [] → specFallbackNodes ms ds ts ≠ []) := by
  constructor
  · simp [fallback_extraction, pyGet, pyIterElems, exbind_ok, List.filterMap_append,
      filterMap_fallback_str, map_fallbackNode_str, specFallbackGraph, specFallbackNodes,
      specFallbackEdges, specNode, fallbackEdge, pyNameOf, List.map_take, List.lookup]
    congr 1
  · intro hor
    simp only [specFallbackNodes, ne_eq, List.append_eq_nil, List.map_eq_nil]
    tauto

/-- C7 witness: a concrete extraction with one method, three datasets and
no themes equals the spec construction and is non-empty. -/
theorem fallback_extraction_deterministic_witness :
    fallback_extraction (.dict [("unique_methods", .list [.str "m1"]),
      ("common_datasets", .list [.str "d1", .str "d2", .str "d3"]),
      ("emerging_themes", .list [])]) =
      .ok (specFallbackGraph ["m1"] ["d1", "d2", "d3"] []) ∧
    specFallbackNodes ["m1"] ["d1", "d2", "d3"] [] ≠ [] := by
  have h := fallback_extraction_deterministic ["m1"] ["d1", "d2", "d3"] []
  exact ⟨h.1, h.2 (Or.inl (by simp))⟩

/-- C7 counterexample: applied to the insight-stage fallback payload (an
error dict carrying none of the three list fields) the fallback extraction
produces the EMPTY graph data, refuting the guaranteed non-empty graph. -/
theorem fallback_extraction_empty :
    fallback_extraction errDict = .ok (.dict [("nodes", .list []), ("edges", .list [])]) :=
  rfl

/-- C8 (amended): the recommended-items helper is a pure projection of
three list-valued fields (unique_methods, common_datasets,
evaluation_metrics) of the INSIGHTS output alone: the gaps argument is
ignored, nothing is concatenated or deduplicated, each field value is
passed through verbatim (order preserved), and a missing field or a
non-dict insights value (failed upstream stage) yields an empty list,
never an absent field. -/
theorem recommendations_projection (insights gaps gaps2 : PyVal) :
    extract_recommendations insights gaps =
      .dict [("recommended_methods", specProjection insights "unique_methods"),
             ("recommended_datasets", specProjection insights "common_datasets"),
             ("evaluation_metrics", specProjection insights "evaluation_metrics")] ∧
    extract_recommendations insights gaps = extract_recommendations insights gaps2 := by
  constructor
  · cases insights <;> rfl
  · rfl

/-- C8 counterexample: a duplicated entry of insights.unique_methods is
passed through twice — the output is not a deduplicated list. -/
theorem recommendations_not_deduplicated :
    pyGet (extract_recommendations dupInsights (.dict [])) "recommended_methods" PyVal.none
      = .ok (.list [.str "m", .str "m"]) ∧
    ¬ ([PyVal.str "m", PyVal.str "m"] : List PyVal).Nodup := by
  refine ⟨rfl, ?_⟩
  intro h
  exact (List.nodup_cons.mp h).1 (List.mem_singleton.mpr rfl)
